import Mathlib

/- Shallow embedding of the JetDB backend (src/backend/main.py), covering the
   upload pipeline (parallel_upload_and_convert together with its helpers
   convert_csv_to_parquet_streaming and upload_to_blob_streaming), the
   background analyzer (analyze_dataset_background), upload validation
   (upload_file) and dataset deletion (delete_dataset / delete_from_blob).
   External collaborators (Azure blob storage, Supabase, DuckDB, PyArrow) are
   modelled as oracles recording whether each call succeeds; the blob store is
   tracked as the list of blob names durably written. -/

/-- Python str.replace for a nonempty pattern: replace every non-overlapping
occurrence of pat by rep, scanning left to right.  Fuel-indexed structural
recursion; fuel equal to the source length suffices because every step
consumes at least one source character.  (For an empty pattern this is the
identity; the code only ever replaces ".csv" and ".parquet".) -/
def listReplaceFuel (pat rep : List Char) : Nat → List Char → List Char
  | 0, s => s
  | _ + 1, [] => []
  | fuel + 1, c :: rest =>
    if !pat.isEmpty && pat.isPrefixOf (c :: rest) then
      rep ++ listReplaceFuel pat rep fuel (List.drop pat.length (c :: rest))
    else
      c :: listReplaceFuel pat rep fuel rest

/-- Python s.replace(pat, rep). -/
def pyReplace (s pat rep : String) : String :=
  ⟨listReplaceFuel pat.data rep.data s.data.length s.data⟩

/-- Drop everything up to and through the first occurrence of sep, if any. -/
def dropThroughFirst (sep : List Char) : List Char → Option (List Char)
  | [] => none
  | c :: rest =>
    if !sep.isEmpty && sep.isPrefixOf (c :: rest) then
      some (List.drop sep.length (c :: rest))
    else
      dropThroughFirst sep rest

/-- Fuel-indexed helper for pySplitLast. -/
def lastSegmentFuel (sep : List Char) : Nat → List Char → List Char
  | 0, s => s
  | fuel + 1, s =>
    match dropThroughFirst sep s with
    | none => s
    | some tail => lastSegmentFuel sep fuel tail

/-- Python s.split(sep)[-1]: the segment after the last occurrence of sep
(the whole string when sep does not occur). -/
def pySplitLast (s sep : String) : String :=
  ⟨lastSegmentFuel sep.data s.data.length s.data⟩

/-- Python s.endswith(t). -/
def pyEndsWith (s t : String) : Bool :=
  t.data.isSuffixOf s.data

/-- SKIP_CSV_THRESHOLD_MB = 100 (main.py line 55). -/
def SKIP_CSV_THRESHOLD_MB : ℚ := 100

/-- CONTAINER_NAME = "jetdb-datasets" (main.py line 188). -/
def CONTAINER_NAME : String := "jetdb-datasets"

/-- Blob name used by the upload helpers: f"{dataset_id}/{filename}". -/
def blobName (dataset_id filename : String) : String :=
  dataset_id ++ "/" ++ filename

/-- Blob URL returned by the upload helpers (account host, container, name). -/
def blobUrl (dataset_id filename : String) : String :=
  "https://jetdb.blob.core.windows.net/" ++ CONTAINER_NAME ++ "/" ++
    blobName dataset_id filename

/-- file_size_mb = file_size_bytes / (1024 * 1024) (main.py line 761).  The
Python computation is in binary floating point, but every permitted size is
below 2^53 and the divisor is a power of two, so the float value is exact and
agrees with the rational value. -/
def file_size_mb (bytes : Nat) : ℚ :=
  (bytes : ℚ) / (1024 * 1024)

/-- skip_csv_upload = file_size_mb > SKIP_CSV_THRESHOLD_MB (main.py line 385). -/
def skip_csv_upload (bytes : Nat) : Bool :=
  decide (file_size_mb bytes > SKIP_CSV_THRESHOLD_MB)

/-- Outcomes of the external collaborators used by one run of the pipeline. -/
structure PipeEnv where
  /-- Does the whole try-block of convert_csv_to_parquet_streaming succeed
  (PyArrow conversion and the parquet blob upload inside it)? -/
  convertOk : Bool
  /-- Size of the parquet file when conversion succeeds. -/
  parquetSize : Nat
  /-- Does upload_to_blob_streaming of the original CSV succeed? -/
  csvUploadOk : Bool
deriving DecidableEq

/-- filename.replace('.csv', '.parquet') (main.py line 343). -/
def parquetFilename (filename : String) : String :=
  pyReplace filename ".csv" ".parquet"

/-- convert_csv_to_parquet_streaming (main.py lines 289-370): returns
some (parquet_url, parquet_size) on success, none on any failure (the function
catches every exception).  The second component lists the blob names durably
written by the call. -/
def convert_csv_to_parquet_streaming (env : PipeEnv) (dataset_id filename : String) :
    Option (String × Nat) × List String :=
  if env.convertOk then
    (some (blobUrl dataset_id (parquetFilename filename), env.parquetSize),
      [blobName dataset_id (parquetFilename filename)])
  else
    (none, [])

/-- upload_to_blob_streaming (main.py lines 236-252): uploads the original
file under f"{dataset_id}/{filename}" and returns the blob URL; exceptions
propagate.  The second component lists the blob names durably written. -/
def upload_to_blob_streaming (env : PipeEnv) (dataset_id filename : String) :
    Except String (String × List String) :=
  if env.csvUploadOk then
    .ok (blobUrl dataset_id filename, [blobName dataset_id filename])
  else
    .error "blob upload failed"

/-- Result triple of parallel_upload_and_convert:
(final_blob_url, final_size_bytes, storage_format). -/
structure PipeResult where
  url : String
  size : Nat
  storage_format : String
deriving DecidableEq

/-- parallel_upload_and_convert (main.py lines 372-446).  bytes is the size of
the temporary file (os.path.getsize(temp_path), which equals the streamed
file_size_bytes; the caller passes file_size_mb computed from the same value).
Returns the pipeline outcome together with the list of all blob names durably
written during the call, including writes that happened before a failure. -/
def parallel_upload_and_convert (env : PipeEnv) (dataset_id filename : String)
    (bytes : Nat) : Except String PipeResult × List String :=
  if skip_csv_upload bytes then
    match convert_csv_to_parquet_streaming env dataset_id filename with
    | (some (purl, psize), pblobs) =>
      (.ok ⟨purl, psize, "parquet"⟩, pblobs)
    | (none, pblobs) =>
      match upload_to_blob_streaming env dataset_id filename with
      | .ok (curl, cblobs) => (.ok ⟨curl, bytes, "csv"⟩, pblobs ++ cblobs)
      | .error e => (.error e, pblobs)
  else
    match convert_csv_to_parquet_streaming env dataset_id filename with
    | (pres, pblobs) =>
      match upload_to_blob_streaming env dataset_id filename with
      | .error e => (.error e, pblobs)
      | .ok (curl, cblobs) =>
        match pres with
        | some (purl, psize) => (.ok ⟨purl, psize, "parquet"⟩, cblobs ++ pblobs)
        | none => (.ok ⟨curl, bytes, "csv"⟩, cblobs ++ pblobs)

/-- The boundary of the size test: the strict comparison
file_size_mb > 100 holds exactly when the byte count exceeds 100 * 1024 * 1024. -/
theorem skip_csv_upload_iff (bytes : Nat) :
    skip_csv_upload bytes = decide (bytes > 100 * 1024 * 1024) := by
  have hpos : (0 : ℚ) < 1024 * 1024 := by norm_num
  simp only [skip_csv_upload, file_size_mb, SKIP_CSV_THRESHOLD_MB]
  rw [decide_eq_decide, gt_iff_lt, lt_div_iff₀ hpos]
  rw [show (100 : ℚ) * (1024 * 1024) = ((100 * 1024 * 1024 : Nat) : ℚ) by norm_num]
  rw [Nat.cast_lt]

/-- One row of the datasets table, with the fields the core reads and writes.
error_message is optional: the upload insert (main.py lines 777-791) does not
set it and no code path ever writes it. -/
structure DatasetRecord where
  id : String
  user_id : String
  filename : String
  blob_path : String
  size_bytes : Nat
  row_count : Int
  column_count : Nat
  columns : List String
  status : String
  error_message : Option String
  storage_format : String
deriving DecidableEq

/-- The dataset_record inserted by upload_file (main.py lines 777-791). -/
def initialRecord (dataset_id user_id filename : String) (r : PipeResult) :
    DatasetRecord :=
  { id := dataset_id
    user_id := user_id
    filename := filename
    blob_path := r.url
    size_bytes := r.size
    row_count := 0
    column_count := 0
    columns := []
    status := "analyzing"
    error_message := none
    storage_format := r.storage_format }

/-- An HTTP-level failure of the upload endpoint: either a ValidationError
(error code, handled as status 400 by the JetDB exception handler) or a plain
HTTPException with a status code and detail string. -/
inductive HttpError where
  | validation (code : String)
  | http (statusCode : Nat) (detail : String)
deriving DecidableEq

/-- External outcomes of one call of the upload endpoint. -/
structure UploadEnv where
  /-- file.filename. -/
  filename : String
  /-- Total bytes streamed from the request (file_size_bytes). -/
  sizeBytes : Nat
  /-- Collaborator outcomes for parallel_upload_and_convert. -/
  pipe : PipeEnv
  /-- Does supabase.table('datasets').insert(...) succeed? -/
  insertOk : Bool
deriving DecidableEq

/-- Everything observable about one call of the upload endpoint. -/
structure UploadResult where
  /-- The HTTP response: the metadata of the created record on success. -/
  response : Except HttpError DatasetRecord
  /-- The record inserted into the datasets table, if any. -/
  recordInserted : Option DatasetRecord
  /-- Blob names durably written during the call (in any order). -/
  blobsWritten : List String
  /-- Was analyze_dataset_background scheduled as a background task? -/
  analysisScheduled : Bool

/-- upload_file (main.py lines 699-825).  Control flow, in source order:
filename must end in ".csv" (line 715); the body is streamed to a local
temporary file (no blob write); a zero-byte body is rejected with
HTTPException(400, "File is empty") (line 750); a body over 10 * 1024^3 bytes
is rejected with ValidationError("INVALID_FILE_SIZE") (line 753); then
parallel_upload_and_convert runs, the record is inserted, and the background
analysis task is scheduled; any exception from the pipeline or the insert is
re-raised as HTTPException(500, ...) by the generic handler at line 818. -/
def upload_file (env : UploadEnv) (dataset_id user_id : String) : UploadResult :=
  if !pyEndsWith env.filename ".csv" then
    ⟨.error (.validation "INVALID_FILE_TYPE"), none, [], false⟩
  else if env.sizeBytes = 0 then
    ⟨.error (.http 400 "File is empty"), none, [], false⟩
  else if env.sizeBytes > 10 * 1024 * 1024 * 1024 then
    ⟨.error (.validation "INVALID_FILE_SIZE"), none, [], false⟩
  else
    match parallel_upload_and_convert env.pipe dataset_id env.filename env.sizeBytes with
    | (.error e, blobs) =>
      ⟨.error (.http 500 ("Upload failed: " ++ e)), none, blobs, false⟩
    | (.ok r, blobs) =>
      if env.insertOk then
        ⟨.ok (initialRecord dataset_id user_id env.filename r),
          some (initialRecord dataset_id user_id env.filename r), blobs, true⟩
      else
        ⟨.error (.http 500 "Upload failed: insert"), none, blobs, false⟩

/-- The sample the analytical engine returns for
"SELECT * FROM '{auth_url}' LIMIT 1" (main.py line 532): column names and row
data (cells may be null).  analyze_dataset_background reads only the columns;
the rows are carried so that properties about sample contents can be stated. -/
structure Sample where
  columns : List String
  rows : List (List (Option String))
deriving DecidableEq

/-- Outcomes of the external calls made by one run of
analyze_dataset_background. -/
structure EngineOutcome where
  /-- Result of "SELECT COUNT(*) ..." (main.py lines 527-529): the count, or
  an error message when DuckDB raises. -/
  countResult : Except String Nat
  /-- Result of "SELECT * ... LIMIT 1" (main.py line 532). -/
  sampleResult : Except String Sample
  /-- Does the supabase ready-update call (lines 539-544) succeed? -/
  updateOk : Bool
  /-- Does the supabase error-update call (lines 552-554) succeed?  Its own
  failure is swallowed by the inner bare except (lines 555-556). -/
  errorUpdateOk : Bool

/-- One supabase .update(...).eq(...) call issued by the analyzer: the fields
it sets (absent fields are untouched) and the .eq filters it applies. -/
structure DbUpdate where
  setRowCount : Option Int
  setColumnCount : Option Nat
  setColumns : Option (List String)
  setStatus : Option String
  setErrorMessage : Option String
  filterId : String
  filterUserId : Option String
deriving DecidableEq

/-- The single update issued on analysis success (main.py lines 539-544):
row_count, column_count = len(result.columns), columns = list(result.columns),
status = "ready", filtered by both dataset id and user id. -/
def readyUpdate (rc : Nat) (cols : List String) (dataset_id user_id : String) :
    DbUpdate :=
  ⟨some (rc : Int), some cols.length, some cols, some "ready", none,
    dataset_id, some user_id⟩

/-- The update issued on analysis failure (main.py lines 552-554): only
status = "error", filtered by dataset id alone; no error message is set. -/
def errorUpdate (dataset_id : String) : DbUpdate :=
  ⟨none, none, none, some "error", none, dataset_id, none⟩

/-- The schema/row-count resolution part of the analyzer's try-block
(main.py lines 527-534): one COUNT query and one LIMIT-1 sample query with
DuckDB's default configuration; either exception propagates. -/
def resolveAttempt (eng : EngineOutcome) : Except String (Nat × Sample) := do
  let rc ← eng.countResult
  let s ← eng.sampleResult
  pure (rc, s)

/-- The whole try-block of analyze_dataset_background (main.py lines 516-546):
resolve, then issue the ready update; a failing update call raises out of the
try-block with no update applied. -/
def analyzeTry (eng : EngineOutcome) (dataset_id user_id : String) :
    Except String (List DbUpdate) := do
  let (rc, s) ← resolveAttempt eng
  if eng.updateOk then
    pure [readyUpdate rc s.columns dataset_id user_id]
  else
    throw "ready update failed"

/-- analyze_dataset_background (main.py lines 510-563): the try-block, with
every exception caught at line 548 and answered by a best-effort error update
(itself allowed to fail silently).  The function is total: it returns the list
of updates applied to the datasets table and never raises. -/
def analyze_dataset_background (eng : EngineOutcome) (dataset_id user_id : String) :
    List DbUpdate :=
  match analyzeTry eng dataset_id user_id with
  | .ok updates => updates
  | .error _ => if eng.errorUpdateOk then [errorUpdate dataset_id] else []

/-- Does an update's .eq filter set match a record? -/
def matchesFilters (u : DbUpdate) (r : DatasetRecord) : Bool :=
  u.filterId == r.id &&
    (match u.filterUserId with
     | none => true
     | some uid => uid == r.user_id)

/-- Apply one update to one record (the metadata store's partial-field
update: fields the update does not set keep their value). -/
def applyUpdate (u : DbUpdate) (r : DatasetRecord) : DatasetRecord :=
  if matchesFilters u r then
    { r with
      row_count := u.setRowCount.getD r.row_count
      column_count := u.setColumnCount.getD r.column_count
      columns := u.setColumns.getD r.columns
      status := u.setStatus.getD r.status
      error_message :=
        match u.setErrorMessage with
        | some m => some m
        | none => r.error_message }
  else
    r

/-- Outcomes of the external calls made by one run of delete_dataset. -/
structure DeleteEnv where
  /-- Does blob_client.delete_blob() succeed for a given blob name?  (False
  both when the blob is missing and when the storage call fails.) -/
  blobDeleteOk : String → Bool
  /-- Does the supabase delete call succeed? -/
  dbDeleteOk : Bool

/-- delete_from_blob (main.py lines 271-283): the blob name is recovered as
blob_path.split(f"{CONTAINER_NAME}/")[-1]; the delete call's exceptions are
swallowed (logged as a warning), so on failure the store is unchanged. -/
def delete_from_blob (env : DeleteEnv) (store : List String) (blob_path : String) :
    List String :=
  let name := pySplitLast blob_path (CONTAINER_NAME ++ "/")
  if env.blobDeleteOk name then
    store.filter (fun b => b ≠ name)
  else
    store

/-- Everything observable about one call of the delete endpoint. -/
structure DeleteResult where
  /-- The HTTP response. -/
  response : Except HttpError Unit
  /-- The blob store (list of blob names) after the call. -/
  store : List String
  /-- Was the record removed from the datasets table? -/
  recordDeleted : Bool

/-- delete_dataset (main.py lines 971-998): delete the main blob; when the
record's storage_format is "parquet", also try the CSV backup at
blob_path.replace(".parquet", ".csv"); then delete the record; a failing
record delete raises HTTPException(500, ...). -/
def delete_dataset (env : DeleteEnv) (store : List String) (d : DatasetRecord) :
    DeleteResult :=
  let s1 := delete_from_blob env store d.blob_path
  let s2 :=
    if d.storage_format = "parquet" then
      delete_from_blob env s1 (pyReplace d.blob_path ".parquet" ".csv")
    else
      s1
  if env.dbDeleteOk then
    ⟨.ok (), s2, true⟩
  else
    ⟨.error (.http 500 "Delete failed"), s2, false⟩



/-- Per the spec's resolver contract (section 4.3): a parsing strategy's
sample succeeds iff it has at least one column, at least one row, and at
least one non-null cell.  Spec-side definition, to be compared with what
analyze_dataset_background actually does. -/
def specStrategySucceeds (s : Sample) : Bool :=
  !s.columns.isEmpty && !s.rows.isEmpty &&
    s.rows.any (fun row => row.any (fun cell => cell.isSome))

/-- Per the spec's sanitizer contract (section 4.1): a safe identifier is
nonempty, starts with a letter or underscore, and contains only letters,
digits and underscores.  Spec-side definition. -/
def specSafeIdent (s : String) : Bool :=
  match s.data with
  | [] => false
  | c :: rest =>
    (c.isAlpha || c == '_') && rest.all (fun d => d.isAlphanum || d == '_')

/-- ASCII lower-casing of one character (claim-side helper). -/
def lowerChar (c : Char) : Char :=
  if 65 ≤ c.toNat ∧ c.toNat ≤ 90 then Char.ofNat (c.toNat + 32) else c

/-- ASCII lower-casing of a string (claim-side helper). -/
def lowerStr (s : String) : String :=
  ⟨s.data.map lowerChar⟩

/-- Per the spec's sanitizer contract (section 4.1): pairwise
case-insensitive uniqueness of a list of names.  Spec-side definition. -/
def specCaseInsensitivelyUnique : List String → Bool
  | [] => true
  | s :: rest =>
    rest.all (fun t => lowerStr s != lowerStr t) && specCaseInsensitivelyUnique rest

/-- C1: the claim reads "at or above the threshold [the pipeline] skips
preservation of the original entirely ... a file whose size is exactly the
threshold takes the skip-backup path."  False: the comparison at main.py line
385 is strict (file_size_mb > SKIP_CSV_THRESHOLD_MB), so a file of exactly
100 MB = 100 * 1024 * 1024 bytes takes the parallel backup+convert path: even
with conversion succeeding, the CSV backup blob is uploaded. -/
theorem C1_counterexample :
    skip_csv_upload (100 * 1024 * 1024) = false ∧
    (parallel_upload_and_convert ⟨true, 5, true⟩ "d" "data.csv"
        (100 * 1024 * 1024)).2 =
      [blobName "d" "data.csv", blobName "d" (parquetFilename "data.csv")] := by
  have h : skip_csv_upload (100 * 1024 * 1024) = false := by
    rw [skip_csv_upload_iff]; decide
  refine ⟨h, ?_⟩
  simp [parallel_upload_and_convert, h, convert_csv_to_parquet_streaming,
    upload_to_blob_streaming]

/-- C1 (amended): the pipeline selects its path by a strict comparison of the
file's size to the 100 MB threshold.  Strictly above the threshold it skips
preservation of the original and converts directly, uploading the original
bytes only if conversion fails; at or below the threshold (including exactly
at the threshold) it runs backup preservation and columnar conversion
concurrently. -/
theorem C1_strict_threshold_path_selection (env : PipeEnv) (id fn : String)
    (bytes : Nat) :
    (skip_csv_upload bytes = decide (bytes > 100 * 1024 * 1024)) ∧
    (bytes > 100 * 1024 * 1024 → env.convertOk = true →
      parallel_upload_and_convert env id fn bytes =
        (.ok ⟨blobUrl id (parquetFilename fn), env.parquetSize, "parquet"⟩,
          [blobName id (parquetFilename fn)])) ∧
    (bytes > 100 * 1024 * 1024 → env.convertOk = false → env.csvUploadOk = true →
      parallel_upload_and_convert env id fn bytes =
        (.ok ⟨blobUrl id fn, bytes, "csv"⟩, [blobName id fn])) ∧
    (bytes ≤ 100 * 1024 * 1024 → env.convertOk = true → env.csvUploadOk = true →
      parallel_upload_and_convert env id fn bytes =
        (.ok ⟨blobUrl id (parquetFilename fn), env.parquetSize, "parquet"⟩,
          [blobName id fn, blobName id (parquetFilename fn)])) ∧
    (bytes ≤ 100 * 1024 * 1024 → env.convertOk = false → env.csvUploadOk = true →
      parallel_upload_and_convert env id fn bytes =
        (.ok ⟨blobUrl id fn, bytes, "csv"⟩, [blobName id fn])) := by
  have hb := skip_csv_upload_iff bytes
  refine ⟨hb, ?_, ?_, ?_, ?_⟩
  · intro hgt hc
    have hs : skip_csv_upload bytes = true := by
      rw [hb]; exact decide_eq_true hgt
    simp [parallel_upload_and_convert, hs, convert_csv_to_parquet_streaming,
      upload_to_blob_streaming, hc]
  · intro hgt hc hu
    have hs : skip_csv_upload bytes = true := by
      rw [hb]; exact decide_eq_true hgt
    simp [parallel_upload_and_convert, hs, convert_csv_to_parquet_streaming,
      upload_to_blob_streaming, hc, hu]
  · intro hle hc hu
    have hs : skip_csv_upload bytes = false := by
      rw [hb]; simpa using Nat.not_lt.mpr hle
    simp [parallel_upload_and_convert, hs, convert_csv_to_parquet_streaming,
      upload_to_blob_streaming, hc, hu]
  · intro hle hc hu
    have hs : skip_csv_upload bytes = false := by
      rw [hb]; simpa using Nat.not_lt.mpr hle
    simp [parallel_upload_and_convert, hs, convert_csv_to_parquet_streaming,
      upload_to_blob_streaming, hc, hu]

/-- Witness for C1 at concrete sizes one byte above the threshold (skip
path, parquet only) and exactly at the threshold (parallel path, CSV backup
written as well). -/
theorem C1_strict_threshold_path_selection_witness :
    parallel_upload_and_convert ⟨true, 5, true⟩ "d" "data.csv"
        (100 * 1024 * 1024 + 1) =
      (.ok ⟨blobUrl "d" (parquetFilename "data.csv"), 5, "parquet"⟩,
        [blobName "d" (parquetFilename "data.csv")]) ∧
    parallel_upload_and_convert ⟨true, 5, true⟩ "d" "data.csv"
        (100 * 1024 * 1024) =
      (.ok ⟨blobUrl "d" (parquetFilename "data.csv"), 5, "parquet"⟩,
        [blobName "d" "data.csv", blobName "d" (parquetFilename "data.csv")]) :=
  ⟨(C1_strict_threshold_path_selection ⟨true, 5, true⟩ "d" "data.csv"
      (100 * 1024 * 1024 + 1)).2.1 (Nat.lt_succ_self _) rfl,
   (C1_strict_threshold_path_selection ⟨true, 5, true⟩ "d" "data.csv"
      (100 * 1024 * 1024)).2.2.2.1 (Nat.le_refl _) rfl rfl⟩

/-- C2: the claim reads "a strategy succeeds iff its sample has at least one
column, at least one row, and at least one non-null cell."  False: the
analyzer's single parsing attempt succeeds whenever the two engine queries
return without error, regardless of sample content.  For a sample with one
column and zero rows (so no non-null cell), the analyzer still writes the
dataset ready, even though the claimed success criterion rejects the sample. -/
theorem C2_counterexample :
    resolveAttempt ⟨.ok 0, .ok ⟨["a"], []⟩, true, true⟩ = .ok (0, ⟨["a"], []⟩) ∧
    analyze_dataset_background ⟨.ok 0, .ok ⟨["a"], []⟩, true, true⟩ "d1" "u1" =
      [readyUpdate 0 ["a"] "d1" "u1"] ∧
    specStrategySucceeds ⟨["a"], []⟩ = false := by
  refine ⟨rfl, ?_, by decide⟩
  decide

/-- C2 (amended): resolution makes a single parsing attempt with the engine's
default configuration — no ordered catalog of strategies is iterated.  The
attempt succeeds iff the count query and the sample query both return without
error, independently of how many columns, rows or non-null cells the sample
has; if the attempt fails, the analyzer writes status = error with no
structured reason (the error update carries no message at all), or nothing
when even that update fails. -/
theorem C2_single_attempt_resolution (eng : EngineOutcome)
    (dataset_id user_id : String) :
    ((∃ p, resolveAttempt eng = .ok p) ↔
      (∃ rc, eng.countResult = .ok rc) ∧ (∃ s, eng.sampleResult = .ok s)) ∧
    (∀ (rc : Nat) (s : Sample), eng.countResult = .ok rc →
      eng.sampleResult = .ok s → resolveAttempt eng = .ok (rc, s)) ∧
    (∀ e, analyzeTry eng dataset_id user_id = .error e →
      analyze_dataset_background eng dataset_id user_id = [errorUpdate dataset_id] ∨
      analyze_dataset_background eng dataset_id user_id = []) ∧
    (errorUpdate dataset_id).setErrorMessage = none := by
  obtain ⟨cr, sr, uo, eo⟩ := eng
  refine ⟨?_, ?_, ?_, rfl⟩
  · cases cr <;> cases sr <;>
      simp [resolveAttempt, Except.bind, bind, pure, Except.pure]
  · intro rc s hc hs
    simp only at hc hs
    simp [resolveAttempt, hc, hs, Except.bind, bind, pure, Except.pure]
  · intro e he
    cases eo <;> simp [analyze_dataset_background, he]

/-- Witness for C2 at a concrete failing engine outcome: the count query
errors, so the analyzer's only effect is the message-free error update. -/
theorem C2_single_attempt_resolution_witness :
    analyze_dataset_background ⟨.error "read failed", .ok ⟨["a"], []⟩, true, true⟩
        "d1" "u1" = [errorUpdate "d1"] ∨
    analyze_dataset_background ⟨.error "read failed", .ok ⟨["a"], []⟩, true, true⟩
        "d1" "u1" = [] :=
  (C2_single_attempt_resolution ⟨.error "read failed", .ok ⟨["a"], []⟩, true, true⟩
    "d1" "u1").2.2.1 "read failed" rfl

/-- C3: the claim reads "sanitize ... returns a sequence ... whose entries are
pairwise unique case-insensitively and each match a safe-identifier pattern."
False: the code applies no sanitization at all — analyze_dataset_background
writes columns = list(result.columns) verbatim (main.py lines 534, 542).  For
an engine sample with columns ["col 1", "COL 1"], the analyzer writes exactly
those names, which are neither case-insensitively unique nor safe
identifiers. -/
theorem C3_counterexample :
    analyze_dataset_background
        ⟨.ok 2, .ok ⟨["col 1", "COL 1"], [[some "x", some "y"]]⟩, true, true⟩
        "d1" "u1" =
      [readyUpdate 2 ["col 1", "COL 1"] "d1" "u1"] ∧
    (readyUpdate 2 ["col 1", "COL 1"] "d1" "u1").setColumns =
      some ["col 1", "COL 1"] ∧
    specSafeIdent "col 1" = false ∧
    specCaseInsensitivelyUnique ["col 1", "COL 1"] = false := by
  refine ⟨by decide, rfl, by decide, by decide⟩

/-- C3 (amended): the code applies no sanitization.  The column names the
analyzer writes are exactly the engine sample's columns, in the same order
(the passthrough is trivially total, pure and deterministic, and preserves
length and order), with no guarantee of case-insensitive uniqueness or of
matching any safe-identifier pattern. -/
theorem C3_columns_written_verbatim (eng : EngineOutcome)
    (dataset_id user_id : String) (rc : Nat) (s : Sample)
    (hc : eng.countResult = .ok rc) (hs : eng.sampleResult = .ok s)
    (hu : eng.updateOk = true) :
    analyze_dataset_background eng dataset_id user_id =
      [readyUpdate rc s.columns dataset_id user_id] ∧
    (readyUpdate rc s.columns dataset_id user_id).setColumns = some s.columns := by
  refine ⟨?_, rfl⟩
  simp [analyze_dataset_background, analyzeTry, resolveAttempt, hc, hs, hu,
    Except.bind, bind, pure, Except.pure]

/-- Witness for C3: with duplicate, non-identifier raw headers the analyzer
writes them verbatim. -/
theorem C3_columns_written_verbatim_witness :
    analyze_dataset_background
        ⟨.ok 7, .ok ⟨["9 a!", "9 A!"], [[some "x", none]]⟩, true, true⟩
        "d9" "u9" =
      [readyUpdate 7 ["9 a!", "9 A!"] "d9" "u9"] :=
  (C3_columns_written_verbatim
    ⟨.ok 7, .ok ⟨["9 a!", "9 A!"], [[some "x", none]]⟩, true, true⟩
    "d9" "u9" 7 ⟨["9 a!", "9 A!"], [[some "x", none]]⟩ rfl rfl rfl).1

/-- C4: the claim reads "the analyzer writes status = error together with a
sanitized, user-facing, non-empty error message ... every record with
status == error has a non-empty error_message."  False: the failure handler
(main.py lines 552-554) writes only {"status": "error"} — no error message
field at all — so the resulting record has status "error" and no
error_message. -/
theorem C4_counterexample :
    analyze_dataset_background
        ⟨.error "IO Error: connect failed", .ok ⟨["a"], [[some "x"]]⟩, true, true⟩
        "d1" "u1" = [errorUpdate "d1"] ∧
    (errorUpdate "d1").setStatus = some "error" ∧
    (errorUpdate "d1").setErrorMessage = none ∧
    (applyUpdate (errorUpdate "d1")
        (initialRecord "d1" "u1" "data.csv" ⟨blobUrl "d1" "data.csv", 9, "csv"⟩)).status =
      "error" ∧
    (applyUpdate (errorUpdate "d1")
        (initialRecord "d1" "u1" "data.csv" ⟨blobUrl "d1" "data.csv", 9, "csv"⟩)).error_message =
      none := by
  refine ⟨by decide, rfl, rfl, by decide, by decide⟩

/-- C4 (amended): whenever the analyzer's try-block fails, the analyzer
writes status = error with no error message at all (the update sets only the
status field, is scoped by dataset id alone, and leaves every record's
error_message unchanged); when even that update fails, nothing is written. -/
theorem C4_error_status_without_message (eng : EngineOutcome)
    (dataset_id user_id : String) (e : String)
    (he : analyzeTry eng dataset_id user_id = .error e) :
    (eng.errorUpdateOk = true →
      analyze_dataset_background eng dataset_id user_id = [errorUpdate dataset_id]) ∧
    (eng.errorUpdateOk = false →
      analyze_dataset_background eng dataset_id user_id = []) ∧
    (errorUpdate dataset_id).setStatus = some "error" ∧
    (errorUpdate dataset_id).setErrorMessage = none ∧
    (errorUpdate dataset_id).filterUserId = none ∧
    (∀ r : DatasetRecord,
      (applyUpdate (errorUpdate dataset_id) r).error_message = r.error_message) := by
  refine ⟨?_, ?_, rfl, rfl, rfl, ?_⟩
  · intro h
    simp [analyze_dataset_background, he, h]
  · intro h
    simp [analyze_dataset_background, he, h]
  · intro r
    simp only [applyUpdate, errorUpdate]
    split <;> simp

/-- Witness for C4 at a concrete failing engine outcome. -/
theorem C4_error_status_without_message_witness :
    analyze_dataset_background ⟨.error "boom", .ok ⟨["a"], []⟩, true, true⟩
        "d2" "u2" = [errorUpdate "d2"] :=
  (C4_error_status_without_message ⟨.error "boom", .ok ⟨["a"], []⟩, true, true⟩
    "d2" "u2" "boom" rfl).1 rfl

/-- Helper: every successful run of parallel_upload_and_convert returns a
storage format ("parquet" or "csv") that names an artifact durably written
during that run, and returns "parquet" exactly when the conversion
succeeded. -/
theorem pipeline_format_names_written_blob (env : PipeEnv) (id fn : String)
    (bytes : Nat) (r : PipeResult) (blobs : List String)
    (h : parallel_upload_and_convert env id fn bytes = (.ok r, blobs)) :
    (r.storage_format = "parquet" ∨ r.storage_format = "csv") ∧
    (r.storage_format = "parquet" ↔ env.convertOk = true) ∧
    (r.storage_format = "parquet" →
      r.url = blobUrl id (parquetFilename fn) ∧
      blobName id (parquetFilename fn) ∈ blobs) ∧
    (r.storage_format = "csv" →
      r.url = blobUrl id fn ∧ blobName id fn ∈ blobs) := by
  have hpc : ("parquet" : String) ≠ "csv" := by decide
  have hcp : ("csv" : String) ≠ "parquet" := by decide
  obtain ⟨co, ps, cu⟩ := env
  cases co <;> cases cu <;> cases hsk : skip_csv_upload bytes <;>
    simp [parallel_upload_and_convert, hsk, convert_csv_to_parquet_streaming,
      upload_to_blob_streaming] at h <;>
    (obtain ⟨h1, h2⟩ := h; subst h1; subst h2) <;>
    simp [hpc, hcp]

/-- C5: after every completed ingestion the dataset record's storage_format
names an artifact actually written to the object store: "parquet" exactly
when the columnar conversion succeeded (and then the parquet blob was
written), otherwise "csv" with the preserved original written. -/
theorem C5_storage_format_names_written_artifact (env : UploadEnv)
    (dataset_id user_id : String) (r : DatasetRecord)
    (h : (upload_file env dataset_id user_id).recordInserted = some r) :
    (r.storage_format = "parquet" ∨ r.storage_format = "csv") ∧
    (r.storage_format = "parquet" ↔ env.pipe.convertOk = true) ∧
    (r.storage_format = "parquet" →
      r.blob_path = blobUrl dataset_id (parquetFilename env.filename) ∧
      blobName dataset_id (parquetFilename env.filename) ∈
        (upload_file env dataset_id user_id).blobsWritten) ∧
    (r.storage_format = "csv" →
      r.blob_path = blobUrl dataset_id env.filename ∧
      blobName dataset_id env.filename ∈
        (upload_file env dataset_id user_id).blobsWritten) := by
  cases h1 : pyEndsWith env.filename ".csv" with
  | false => simp [upload_file, h1] at h
  | true =>
    by_cases h2 : env.sizeBytes = 0
    · simp [upload_file, h1, h2] at h
    · by_cases h3 : env.sizeBytes > 10 * 1024 * 1024 * 1024
      · simp [upload_file, h1, h2, h3] at h
      · rcases hP : parallel_upload_and_convert env.pipe dataset_id env.filename
            env.sizeBytes with ⟨res, blobs⟩
        cases res with
        | error e => simp [upload_file, h1, h2, h3, hP] at h
        | ok pr =>
          cases hI : env.insertOk with
          | false => simp [upload_file, h1, h2, h3, hP, hI] at h
          | true =>
            have hfp := pipeline_format_names_written_blob env.pipe dataset_id
              env.filename env.sizeBytes pr blobs hP
            simp [upload_file, h1, h2, h3, hP, hI] at h ⊢
            subst h
            simpa [initialRecord] using hfp

/-- Witness for C5: a concrete small upload with successful conversion
produces a "parquet" record whose parquet blob was written. -/
theorem C5_storage_format_names_written_artifact_witness :
    blobName "d1" (parquetFilename "data.csv") ∈
      (upload_file ⟨"data.csv", 5, ⟨true, 3, true⟩, true⟩ "d1" "u1").blobsWritten := by
  have hs : skip_csv_upload 5 = false := by
    rw [skip_csv_upload_iff]; decide
  have hend : pyEndsWith "data.csv" ".csv" = true := by decide
  have h : (upload_file ⟨"data.csv", 5, ⟨true, 3, true⟩, true⟩ "d1" "u1").recordInserted =
      some (initialRecord "d1" "u1" "data.csv"
        ⟨blobUrl "d1" (parquetFilename "data.csv"), 3, "parquet"⟩) := by
    simp [upload_file, hend, hs, parallel_upload_and_convert,
      convert_csv_to_parquet_streaming, upload_to_blob_streaming]
  exact ((C5_storage_format_names_written_artifact
    ⟨"data.csv", 5, ⟨true, 3, true⟩, true⟩ "d1" "u1" _ h).2.2.1 rfl).2

/-- C6: on successful background analysis, the analyzer issues exactly one
metadata update, scoped by both dataset id and owner id, setting row_count,
column_count, columns and status = "ready" together, with column_count equal
to the length of the columns it writes; applying that update to any matching
record yields status "ready", row_count ≥ 0 and len(columns) == column_count. -/
theorem C6_ready_update_single_atomic (eng : EngineOutcome)
    (dataset_id user_id : String) (rc : Nat) (s : Sample)
    (hc : eng.countResult = .ok rc) (hs : eng.sampleResult = .ok s)
    (hu : eng.updateOk = true) :
    analyze_dataset_background eng dataset_id user_id =
      [readyUpdate rc s.columns dataset_id user_id] ∧
    (readyUpdate rc s.columns dataset_id user_id).filterId = dataset_id ∧
    (readyUpdate rc s.columns dataset_id user_id).filterUserId = some user_id ∧
    (readyUpdate rc s.columns dataset_id user_id).setColumnCount =
      some s.columns.length ∧
    (∀ r : DatasetRecord,
      matchesFilters (readyUpdate rc s.columns dataset_id user_id) r = true →
      (applyUpdate (readyUpdate rc s.columns dataset_id user_id) r).status = "ready" ∧
      0 ≤ (applyUpdate (readyUpdate rc s.columns dataset_id user_id) r).row_count ∧
      (applyUpdate (readyUpdate rc s.columns dataset_id user_id) r).columns.length =
        (applyUpdate (readyUpdate rc s.columns dataset_id user_id) r).column_count) := by
  refine ⟨?_, rfl, rfl, rfl, ?_⟩
  · simp [analyze_dataset_background, analyzeTry, resolveAttempt, hc, hs, hu,
      Except.bind, bind, pure, Except.pure]
  · intro r hm
    simp only [applyUpdate, hm, if_true]
    simp [readyUpdate, Int.natCast_nonneg]

/-- Witness for C6 at a concrete successful engine outcome and record. -/
theorem C6_ready_update_single_atomic_witness :
    analyze_dataset_background ⟨.ok 5, .ok ⟨["a", "b"], [[some "x", none]]⟩, true, true⟩
        "d1" "u1" = [readyUpdate 5 ["a", "b"] "d1" "u1"] ∧
    (applyUpdate (readyUpdate 5 ["a", "b"] "d1" "u1")
        (initialRecord "d1" "u1" "data.csv" ⟨blobUrl "d1" "data.csv", 9, "csv"⟩)).status =
      "ready" := by
  have H := C6_ready_update_single_atomic
    ⟨.ok 5, .ok ⟨["a", "b"], [[some "x", none]]⟩, true, true⟩
    "d1" "u1" 5 ⟨["a", "b"], [[some "x", none]]⟩ rfl rfl rfl
  exact ⟨H.1, (H.2.2.2.2
    (initialRecord "d1" "u1" "data.csv" ⟨blobUrl "d1" "data.csv", 9, "csv"⟩)
    (by decide)).1⟩

/-- C8: once the dataset record has been created, no failure inside the
pipeline or the background analyzer reaches the upload caller: whenever the
record was inserted, the endpoint's response is success carrying that record,
with the analysis deferred to a background task; and for every possible
engine outcome the analyzer runs to completion, its only outward effect being
metadata updates whose status field is "ready" or "error". -/
theorem C8_no_error_propagation_after_record (env : UploadEnv)
    (dataset_id user_id : String) (r : DatasetRecord)
    (h : (upload_file env dataset_id user_id).recordInserted = some r) :
    (upload_file env dataset_id user_id).response = .ok r ∧
    (upload_file env dataset_id user_id).analysisScheduled = true ∧
    (∀ eng : EngineOutcome, ∀ u ∈ analyze_dataset_background eng dataset_id user_id,
      u.setStatus = some "ready" ∨ u.setStatus = some "error") := by
  refine ⟨?_, ?_, ?_⟩
  · cases h1 : pyEndsWith env.filename ".csv" with
    | false => simp [upload_file, h1] at h
    | true =>
      by_cases h2 : env.sizeBytes = 0
      · simp [upload_file, h1, h2] at h
      · by_cases h3 : env.sizeBytes > 10 * 1024 * 1024 * 1024
        · simp [upload_file, h1, h2, h3] at h
        · rcases hP : parallel_upload_and_convert env.pipe dataset_id env.filename
              env.sizeBytes with ⟨res, blobs⟩
          cases res with
          | error e => simp [upload_file, h1, h2, h3, hP] at h
          | ok pr =>
            cases hI : env.insertOk with
            | false => simp [upload_file, h1, h2, h3, hP, hI] at h
            | true => simp [upload_file, h1, h2, h3, hP, hI] at h ⊢; exact h
  · cases h1 : pyEndsWith env.filename ".csv" with
    | false => simp [upload_file, h1] at h
    | true =>
      by_cases h2 : env.sizeBytes = 0
      · simp [upload_file, h1, h2] at h
      · by_cases h3 : env.sizeBytes > 10 * 1024 * 1024 * 1024
        · simp [upload_file, h1, h2, h3] at h
        · rcases hP : parallel_upload_and_convert env.pipe dataset_id env.filename
              env.sizeBytes with ⟨res, blobs⟩
          cases res with
          | error e => simp [upload_file, h1, h2, h3, hP] at h
          | ok pr =>
            cases hI : env.insertOk with
            | false => simp [upload_file, h1, h2, h3, hP, hI] at h
            | true => simp [upload_file, h1, h2, h3, hP, hI]
  · intro eng u hu
    obtain ⟨cr, sr, uo, eo⟩ := eng
    cases cr <;> cases sr <;> cases uo <;> cases eo <;>
      simp [analyze_dataset_background, analyzeTry, resolveAttempt,
        Except.bind, bind, pure, Except.pure, errorUpdate, readyUpdate] at hu <;>
      simp [hu, errorUpdate, readyUpdate]

/-- Witness for C8: a concrete successful upload returns success carrying the
inserted record. -/
theorem C8_no_error_propagation_after_record_witness :
    (upload_file ⟨"data.csv", 5, ⟨true, 3, true⟩, true⟩ "d1" "u1").response =
      .ok (initialRecord "d1" "u1" "data.csv"
        ⟨blobUrl "d1" (parquetFilename "data.csv"), 3, "parquet"⟩) := by
  have hs : skip_csv_upload 5 = false := by
    rw [skip_csv_upload_iff]; decide
  have hend : pyEndsWith "data.csv" ".csv" = true := by decide
  have h : (upload_file ⟨"data.csv", 5, ⟨true, 3, true⟩, true⟩ "d1" "u1").recordInserted =
      some (initialRecord "d1" "u1" "data.csv"
        ⟨blobUrl "d1" (parquetFilename "data.csv"), 3, "parquet"⟩) := by
    simp [upload_file, hend, hs, parallel_upload_and_convert,
      convert_csv_to_parquet_streaming, upload_to_blob_streaming]
  exact (C8_no_error_propagation_after_record
    ⟨"data.csv", 5, ⟨true, 3, true⟩, true⟩ "d1" "u1" _ h).1

/-- Helper: the blob name targeted by delete_from_blob is absent from the
store afterwards when the storage delete call succeeds. -/
theorem not_mem_delete_from_blob_self (env : DeleteEnv) (store : List String)
    (p : String)
    (h : env.blobDeleteOk (pySplitLast p (CONTAINER_NAME ++ "/")) = true) :
    pySplitLast p (CONTAINER_NAME ++ "/") ∉ delete_from_blob env store p := by
  simp [delete_from_blob, h, List.mem_filter]

/-- Helper: delete_from_blob never adds blobs to the store. -/
theorem mem_of_mem_delete_from_blob (env : DeleteEnv) (store : List String)
    (p b : String) (h : b ∈ delete_from_blob env store p) : b ∈ store := by
  simp only [delete_from_blob] at h
  split at h
  · exact (List.mem_filter.mp h).1
  · exact h

/-- Helper: the blob-store state after delete_dataset, which never depends on
whether the subsequent record delete succeeds (blob deletion happens first). -/
theorem delete_dataset_store_eq (env : DeleteEnv) (store : List String)
    (d : DatasetRecord) :
    (delete_dataset env store d).store =
      (if d.storage_format = "parquet" then
        delete_from_blob env (delete_from_blob env store d.blob_path)
          (pyReplace d.blob_path ".parquet" ".csv")
      else
        delete_from_blob env store d.blob_path) := by
  simp only [delete_dataset]
  cases hdb : env.dbDeleteOk <;> simp [hdb]

/-- C7: the claim reads "record deletion never completes while leaving a
referenced blob behind."  False: delete_from_blob (main.py lines 271-283)
swallows every storage exception, so when the storage delete call fails,
delete_dataset still deletes the record and returns success while the
referenced blob is still in the store. -/
theorem C7_counterexample :
    delete_dataset ⟨fun _ => false, true⟩ [blobName "d1" "data.parquet"]
        (initialRecord "d1" "u1" "data.csv"
          ⟨blobUrl "d1" "data.parquet", 5, "parquet"⟩) =
      ⟨.ok (), [blobName "d1" "data.parquet"], true⟩ ∧
    (initialRecord "d1" "u1" "data.csv"
        ⟨blobUrl "d1" "data.parquet", 5, "parquet"⟩).blob_path =
      blobUrl "d1" "data.parquet" ∧
    blobName "d1" "data.parquet" =
      pySplitLast (blobUrl "d1" "data.parquet") (CONTAINER_NAME ++ "/") := by
  exact ⟨rfl, rfl, by decide⟩

/-- C7 (amended): deleting a dataset attempts to delete the referenced
blob(s) — the blob named by blob_path, and for "parquet" records also the CSV
backup path obtained by replacing ".parquet" with ".csv" — before the record
is deleted, and the blob-store effect is the same whether or not the record
delete succeeds.  When the storage delete calls succeed, no referenced blob
remains; but a failed storage delete is swallowed, so record deletion can
still complete (see the counterexample). -/
theorem C7_blob_delete_before_record_delete (env : DeleteEnv)
    (store : List String) (d : DatasetRecord)
    (hmain : env.blobDeleteOk (pySplitLast d.blob_path (CONTAINER_NAME ++ "/")) = true) :
    pySplitLast d.blob_path (CONTAINER_NAME ++ "/") ∉
      (delete_dataset env store d).store ∧
    (d.storage_format = "parquet" →
      env.blobDeleteOk (pySplitLast (pyReplace d.blob_path ".parquet" ".csv")
          (CONTAINER_NAME ++ "/")) = true →
      pySplitLast (pyReplace d.blob_path ".parquet" ".csv") (CONTAINER_NAME ++ "/") ∉
        (delete_dataset env store d).store) ∧
    (delete_dataset env store d).store =
      (delete_dataset ⟨env.blobDeleteOk, true⟩ store d).store := by
  refine ⟨?_, ?_, ?_⟩
  · rw [delete_dataset_store_eq]
    split
    · intro hmem
      exact not_mem_delete_from_blob_self env store d.blob_path hmain
        (mem_of_mem_delete_from_blob env _ _ _ hmem)
    · exact not_mem_delete_from_blob_self env store d.blob_path hmain
  · intro hfmt hback
    rw [delete_dataset_store_eq]
    simp only [hfmt, if_pos]
    exact not_mem_delete_from_blob_self env _ _ hback
  · rw [delete_dataset_store_eq, delete_dataset_store_eq]
    rfl

/-- Witness for C7: with the storage delete succeeding, the referenced blob
is gone after deletion. -/
theorem C7_blob_delete_before_record_delete_witness :
    pySplitLast (blobUrl "d1" "data.parquet") (CONTAINER_NAME ++ "/") ∉
      (delete_dataset ⟨fun _ => true, true⟩ [blobName "d1" "data.parquet"]
        (initialRecord "d1" "u1" "data.csv"
          ⟨blobUrl "d1" "data.parquet", 5, "parquet"⟩)).store :=
  (C7_blob_delete_before_record_delete ⟨fun _ => true, true⟩
    [blobName "d1" "data.parquet"]
    (initialRecord "d1" "u1" "data.csv"
      ⟨blobUrl "d1" "data.parquet", 5, "parquet"⟩) rfl).1

/-- C9: the claim reads "for an empty file (zero bytes), resolution fails
with a ResolutionFailure."  False: an empty upload never reaches resolution
at all — upload_file rejects it synchronously with HTTPException(400, "File
is empty") (main.py lines 749-750) before any blob write, before the record
is created and before background analysis is scheduled, so the analyzer (the
only resolution step) never runs for it.  There is no ResolutionFailure
anywhere in the code. -/
theorem C9_counterexample :
    upload_file ⟨"data.csv", 0, ⟨true, 5, true⟩, true⟩ "d1" "u1" =
      ⟨.error (.http 400 "File is empty"), none, [], false⟩ := rfl

/-- C9 (amended): a zero-byte upload is rejected synchronously by the upload
endpoint with HTTP 400 "File is empty"; no record is created, no blob is
written, and background analysis is never scheduled, so an empty upload never
yields a usable-looking dataset. -/
theorem C9_empty_upload_rejected_before_analysis (env : UploadEnv)
    (dataset_id user_id : String) (h0 : env.sizeBytes = 0) :
    (upload_file env dataset_id user_id).recordInserted = none ∧
    (upload_file env dataset_id user_id).blobsWritten = [] ∧
    (upload_file env dataset_id user_id).analysisScheduled = false ∧
    (pyEndsWith env.filename ".csv" = true →
      (upload_file env dataset_id user_id).response =
        .error (.http 400 "File is empty")) := by
  cases h1 : pyEndsWith env.filename ".csv" <;> simp [upload_file, h1, h0]

/-- Witness for C9 at a concrete zero-byte upload. -/
theorem C9_empty_upload_rejected_before_analysis_witness :
    (upload_file ⟨"data.csv", 0, ⟨true, 5, true⟩, true⟩ "d1" "u1").response =
      .error (.http 400 "File is empty") :=
  (C9_empty_upload_rejected_before_analysis ⟨"data.csv", 0, ⟨true, 5, true⟩, true⟩
    "d1" "u1" rfl).2.2.2 (by decide)

/-- C10: the upload endpoint accepts a file only if its filename ends with
".csv", its size is strictly positive and its size is at most
10 * 1024^3 bytes (10 GiB); every violation is rejected with a 4xx validation
error before any record is created or any blob is written. -/
theorem C10_upload_validation (env : UploadEnv) (dataset_id user_id : String) :
    (∀ r : DatasetRecord, (upload_file env dataset_id user_id).response = .ok r →
      pyEndsWith env.filename ".csv" = true ∧ 0 < env.sizeBytes ∧
      env.sizeBytes ≤ 10 * 1024 * 1024 * 1024) ∧
    (pyEndsWith env.filename ".csv" = false →
      upload_file env dataset_id user_id =
        ⟨.error (.validation "INVALID_FILE_TYPE"), none, [], false⟩) ∧
    (pyEndsWith env.filename ".csv" = true → env.sizeBytes = 0 →
      upload_file env dataset_id user_id =
        ⟨.error (.http 400 "File is empty"), none, [], false⟩) ∧
    (pyEndsWith env.filename ".csv" = true →
      env.sizeBytes > 10 * 1024 * 1024 * 1024 →
      upload_file env dataset_id user_id =
        ⟨.error (.validation "INVALID_FILE_SIZE"), none, [], false⟩) := by
  refine ⟨?_, ?_, ?_, ?_⟩
  · intro r h
    cases h1 : pyEndsWith env.filename ".csv" with
    | false => simp [upload_file, h1] at h
    | true =>
      by_cases h2 : env.sizeBytes = 0
      · simp [upload_file, h1, h2] at h
      · by_cases h3 : env.sizeBytes > 10 * 1024 * 1024 * 1024
        · simp [upload_file, h1, h2, h3] at h
        · exact ⟨rfl, Nat.pos_of_ne_zero h2, Nat.not_lt.mp h3⟩
  · intro h1
    simp [upload_file, h1]
  · intro h1 h2
    simp [upload_file, h1, h2]
  · intro h1 h3
    have h2 : ¬ env.sizeBytes = 0 := by
      intro h0
      rw [h0] at h3
      exact absurd h3 (by decide)
    simp [upload_file, h1, h2, h3]

/-- Witness for C10: a non-CSV filename is rejected with a validation error,
no record and no blob. -/
theorem C10_upload_validation_witness :
    upload_file ⟨"data.txt", 5, ⟨true, 3, true⟩, true⟩ "d1" "u1" =
      ⟨.error (.validation "INVALID_FILE_TYPE"), none, [], false⟩ :=
  (C10_upload_validation ⟨"data.txt", 5, ⟨true, 3, true⟩, true⟩ "d1" "u1").2.1
    (by decide)
